import Mathlib

/-
Verification of the Queen Koba skincare backend (two editions: a document-store
edition `queenkoba_mongodb.py` and a relational edition `queenkoba_postgresql.py`).

Conventions of the shallow embedding:
- Python floats used for money are modelled as exact rationals (ℚ); Python's
  builtin `round(x, 2)` is modelled as round-half-to-even at two decimal places
  on the exact value.
- The storage collaborator is modelled as explicit state records; each route
  handler becomes a function from state (plus request data) to a response
  together with the post state.  A clock value `now` is passed explicitly
  wherever the source calls `datetime.utcnow()`.
- Identifiers (Mongo ObjectIds, short order codes) are opaque strings supplied
  as parameters; generated storage ids are likewise parameters.
- JSON error responses are modelled by the inductive `ApiErr`, with
  `ApiErr.httpStatus` recording the HTTP status code each error is served with.
-/

namespace QueenKoba

/-- Round-half-to-even of a rational to an integer, the rounding of Python's
builtin `round` applied to an exact value. -/
def roundHalfEven (q : ℚ) : ℤ :=
  let f := ⌊q⌋
  let frac := q - f
  if frac < 1/2 then f
  else if 1/2 < frac then f + 1
  else if f % 2 = 0 then f else f + 1

/-- Rounding to two decimal places; models `round(x, 2)` from the source. -/
def round2 (q : ℚ) : ℚ := (roundHalfEven (q * 100) : ℚ) / 100

/-- The fixed four supported currencies. -/
inductive Currency
  | KES
  | UGX
  | BIF
  | CDF
deriving DecidableEq, Repr

/-- The hardcoded `exchange_rates` table of `calculate_prices`. -/
def exchange_rates : Currency → ℚ
  | .KES => 1285 / 10
  | .UGX => 358234 / 100
  | .BIF => 2850
  | .CDF => 2700

/-- The hardcoded `currency_symbols` table of `calculate_prices`. -/
def currency_symbols : Currency → String
  | .KES => "KSh"
  | .UGX => "USh"
  | .BIF => "FBu"
  | .CDF => "FC"

/-- The hardcoded country table inside the loop of `calculate_prices`. -/
def currency_country : Currency → String
  | .KES => "Kenya"
  | .UGX => "Uganda"
  | .BIF => "Burundi"
  | .CDF => "DRC Congo"

/-- One entry of the per-currency price map built by `calculate_prices`. -/
structure PriceEntry where
  amount : ℚ
  symbol : String
  country : String
deriving DecidableEq, Repr

/-- `calculate_prices` from both editions (the two copies are identical):
for each supported currency, amount rounded to two decimals, plus the fixed
symbol and country. -/
def calculate_prices (base_price_usd : ℚ) : Currency → PriceEntry :=
  fun currency =>
    { amount := round2 (base_price_usd * exchange_rates currency)
      symbol := currency_symbols currency
      country := currency_country currency }

/-- Claim C2: for every base price p ≥ 0 and every supported currency c,
`calculate_prices p c` has amount `round(p * rate c, 2)` (round-half-to-even
at two decimals), and its symbol and country do not depend on p;
`calculate_prices` is a pure function, hence deterministic. -/
theorem calculate_prices_spec (p q : ℚ) (_hp : 0 ≤ p) (c : Currency) :
    (calculate_prices p c).amount = round2 (p * exchange_rates c) ∧
    (calculate_prices p c).symbol = (calculate_prices q c).symbol ∧
    (calculate_prices p c).country = (calculate_prices q c).country := by
  exact ⟨rfl, rfl, rfl⟩

/-- Witness for C2 at the concrete base price 29.99 USD and currency KES:
29.99 * 128.5 = 3853.715, which rounds to 3853.72 (recomputed here via
`round2`), and the symbol/country agree with those at a different price. -/
theorem calculate_prices_spec_witness :
    (0 : ℚ) ≤ 2999 / 100 ∧
    ((calculate_prices (2999 / 100) .KES).amount
        = round2 (2999 / 100 * exchange_rates .KES) ∧
      (calculate_prices (2999 / 100) .KES).symbol
        = (calculate_prices 5 .KES).symbol ∧
      (calculate_prices (2999 / 100) .KES).country
        = (calculate_prices 5 .KES).country) :=
  ⟨by norm_num, calculate_prices_spec (2999 / 100) 5 (by norm_num) .KES⟩

/-! ## Document-store edition (`queenkoba_mongodb.py`) -/

/-- A product document: the fields of `mongo.db.products` documents that the
cart/checkout flow reads (`_id`, `name`, `base_price_usd`). -/
structure Product where
  id : String
  name : String
  base_price_usd : ℚ
deriving DecidableEq, Repr

/-- One cart line as stored in a user document: a dict with keys
`product_id`, `quantity`, `added_at`. -/
structure CartLine where
  product_id : String
  quantity : ℤ
  added_at : ℕ
deriving DecidableEq, Repr

/-- One snapshot line of an order's `items` array, as built in `checkout`. -/
structure OrderItem where
  product_id : String
  product_name : String
  quantity : ℤ
  price_per_item : ℚ
  item_total : ℚ
deriving DecidableEq, Repr

/-- An order document of `mongo.db.orders`, as assembled in `checkout`. -/
structure Order where
  order_id : String
  user_id : String
  items : List OrderItem
  total_usd : ℚ
  shipping_address : String
  payment_method : String
  payment_status : String
  order_status : String
  created_at : ℕ
deriving DecidableEq, Repr

/-- A user document of `mongo.db.users`: the fields the modelled routes
read or write. -/
structure MUser where
  id : String
  username : String
  email : String
  country : String
  preferred_currency : String
  role : String
  cart : List CartLine
  orders : List String
  created_at : ℕ
  updated_at : ℕ
deriving DecidableEq, Repr

/-- The storage state as seen by one authenticated request: the product
collection, the authenticated user's document, and the orders collection. -/
structure MongoState where
  products : List Product
  user : MUser
  orders : List Order
deriving DecidableEq, Repr

/-- The error responses the modelled routes can produce. -/
inductive ApiErr
  | missingFields
  | productNotFound
  | cartEmpty
  | emailTaken
  | usernameTaken
deriving DecidableEq, Repr

/-- HTTP status code each error is returned with in the source. -/
def ApiErr.httpStatus : ApiErr → ℕ
  | .productNotFound => 404
  | _ => 400

/-- `mongo.db.products.find_one` keyed by id (`find_one` by `_id`). -/
def findProduct (products : List Product) (pid : String) : Option Product :=
  products.find? (fun p => p.id == pid)

/-- The cart-merge loop of `add_to_cart`: the first line whose `product_id`
matches is incremented; if none matches, a new line is appended with
`added_at = now`. -/
def addLine (cart : List CartLine) (pid : String) (q : ℤ) (now : ℕ) :
    List CartLine :=
  match cart with
  | [] => [{ product_id := pid, quantity := q, added_at := now }]
  | l :: ls =>
    if l.product_id = pid then
      { product_id := l.product_id, quantity := l.quantity + q,
        added_at := l.added_at } :: ls
    else
      l :: addLine ls pid q now

/-- `POST /cart/add` of the document edition.  Python truthiness: the request
is rejected with 400 when `product_id` is missing/empty or `quantity` is
missing/zero (`if not data.get(...)`); then the product must exist; on success
the merged cart and `updated_at = now` are written back and the new cart
length is returned. -/
def add_to_cart (s : MongoState) (pid : String) (q : ℤ) (now : ℕ) :
    Except ApiErr ℕ × MongoState :=
  if pid = "" ∨ q = 0 then
    (.error .missingFields, s)
  else
    match findProduct s.products pid with
    | none => (.error .productNotFound, s)
    | some _ =>
      let cart := addLine s.user.cart pid q now
      (.ok cart.length,
        { s with user := { s.user with cart := cart, updated_at := now } })

/-- `DELETE /cart/remove/<product_id>` of the document edition: filter out
every line with the given product id, write the cart and `updated_at = now`
back, return the new cart length. -/
def remove_from_cart (s : MongoState) (pid : String) (now : ℕ) :
    Except ApiErr ℕ × MongoState :=
  let newCart := s.user.cart.filter (fun l => l.product_id != pid)
  (.ok newCart.length,
    { s with user := { s.user with cart := newCart, updated_at := now } })

/-- One iteration of the checkout loop over cart lines: if the product
resolves, add `base_price_usd * quantity` to the running total and append a
snapshot item; otherwise leave the accumulator unchanged. -/
def checkoutStep (products : List Product) (acc : ℚ × List OrderItem)
    (item : CartLine) : ℚ × List OrderItem :=
  match findProduct products item.product_id with
  | some p =>
    let it := p.base_price_usd * (item.quantity : ℚ)
    (acc.1 + it,
      acc.2 ++ [{ product_id := p.id, product_name := p.name,
                  quantity := item.quantity, price_per_item := p.base_price_usd,
                  item_total := it }])
  | none => acc

/-- The `total_usd` / `order_items` computation of `checkout`. -/
def checkoutItems (products : List Product) (cart : List CartLine) :
    ℚ × List OrderItem :=
  cart.foldl (checkoutStep products) (0, [])

/-- The success payload of `POST /checkout`. -/
structure CheckoutOk where
  order_id : String
  order_number : String
  total : ℚ
  items_count : ℕ
deriving DecidableEq, Repr

/-- `POST /checkout` of the document edition.  `code` is the generated
8-character order code, `storageId` the storage id of the inserted order
document (`str(order_result.inserted_id)`).  On an empty cart: error 400,
no writes.  Otherwise: compute totals and snapshots over the cart, insert
the order, clear the user's cart (setting `updated_at = now`), and append
the storage id to the user's `orders` list. -/
def checkout (s : MongoState) (code storageId ship pay : String) (now : ℕ) :
    Except ApiErr CheckoutOk × MongoState :=
  if s.user.cart.length = 0 then
    (.error .cartEmpty, s)
  else
    let r := checkoutItems s.products s.user.cart
    let order : Order :=
      { order_id := code, user_id := s.user.id, items := r.2, total_usd := r.1,
        shipping_address := ship, payment_method := pay,
        payment_status := "pending", order_status := "processing",
        created_at := now }
    (.ok { order_id := code, order_number := storageId, total := r.1,
           items_count := r.2.length },
      { s with
          orders := s.orders ++ [order],
          user := { s.user with cart := [], updated_at := now,
                                orders := s.user.orders ++ [storageId] } })

/-- The `total_usd` computation of `GET /cart`: sum `base_price_usd * quantity`
over the lines whose product resolves, silently skipping the rest. -/
def cartTotalStep (products : List Product) (t : ℚ) (item : CartLine) : ℚ :=
  match findProduct products item.product_id with
  | some p => t + p.base_price_usd * (item.quantity : ℚ)
  | none => t

/-- The cart total of `GET /cart` in the document edition. -/
def cartTotalUsd (products : List Product) (cart : List CartLine) : ℚ :=
  cart.foldl (cartTotalStep products) 0

/-- The request body of `POST /auth/register`; `role` stands for any
client-supplied role field — the handler never reads it. -/
structure RegisterData where
  username : String
  email : String
  password : String
  country : Option String
  preferred_currency : Option String
  role : Option String
deriving Repr

/-- `POST /auth/register` of the document edition: required fields must be
truthy, email and username must be fresh; the created user document always
has `role = "customer"`, an empty cart and empty order list. -/
def register (existing : List MUser) (data : RegisterData) (newId : String)
    (now : ℕ) : Except ApiErr MUser :=
  if data.username = "" ∨ data.email = "" ∨ data.password = "" then
    .error .missingFields
  else if (existing.find? (fun u => u.email == data.email)).isSome then
    .error .emailTaken
  else if (existing.find? (fun u => u.username == data.username)).isSome then
    .error .usernameTaken
  else
    .ok { id := newId, username := data.username, email := data.email,
          country := data.country.getD "Kenya",
          preferred_currency := data.preferred_currency.getD "KES",
          role := "customer", cart := [], orders := [],
          created_at := now, updated_at := now }

/-! ## Relational edition (`queenkoba_postgresql.py`) -/

/-- A row of the `products` table: the columns the cart/checkout flow reads. -/
structure PgProduct where
  id : ℕ
  name : String
  base_price_usd : ℚ
deriving DecidableEq, Repr

/-- A row of the `users` table: the columns the modelled routes touch. -/
structure PgUser where
  id : ℕ
  name : String
  email : String
  phone : String
  role : String
  updated_at : ℕ
deriving DecidableEq, Repr

/-- A row of the `cart_items` table. -/
structure PgCartItem where
  user_id : ℕ
  product_id : ℕ
  quantity : ℤ
deriving DecidableEq, Repr

/-- A row of the `orders` table, as assembled in the relational `checkout`. -/
structure PgOrder where
  order_id : String
  user_id : ℕ
  items : List OrderItem
  total_usd : ℚ
  shipping_address : String
  payment_method : String
  payment_status : String
  order_status : String
deriving DecidableEq, Repr

/-- The relational database state the modelled routes touch. -/
structure PgState where
  products : List PgProduct
  users : List PgUser
  cart_items : List PgCartItem
  orders : List PgOrder
deriving DecidableEq, Repr

/-- `Product.query.get` by primary key. -/
def pgFindProduct (products : List PgProduct) (pid : ℕ) : Option PgProduct :=
  products.find? (fun p => p.id == pid)

/-- `CartItem.query.filter_by(user_id=...)`: the authenticated user's cart. -/
def pgUserCart (s : PgState) (uid : ℕ) : List PgCartItem :=
  s.cart_items.filter (fun ci => ci.user_id == uid)

/-- The merge step of the relational `add_to_cart`: the first row matching
(user, product) has its quantity incremented, otherwise a fresh row is
inserted. -/
def pgAddItem (rows : List PgCartItem) (uid pid : ℕ) (q : ℤ) :
    List PgCartItem :=
  match rows with
  | [] => [{ user_id := uid, product_id := pid, quantity := q }]
  | ci :: rest =>
    if ci.user_id = uid ∧ ci.product_id = pid then
      { user_id := ci.user_id, product_id := ci.product_id,
        quantity := ci.quantity + q } :: rest
    else
      ci :: pgAddItem rest uid pid q

/-- `POST /cart/add` of the relational edition: `get_or_404` on the product,
then merge-or-insert the cart row.  There is no quantity validation at all,
and the `users` row is never touched. -/
def pgAddToCart (s : PgState) (uid pid : ℕ) (q : ℤ) :
    Except ApiErr Unit × PgState :=
  match pgFindProduct s.products pid with
  | none => (.error .productNotFound, s)
  | some _ =>
    (.ok (), { s with cart_items := pgAddItem s.cart_items uid pid q })

/-- The fold of the relational checkout loop: `item.product` is a foreign-key
association; when the referenced product row is absent the handler raises
(`AttributeError` on `None`), modelled as `none` — the request then fails
with a 500 before any write. -/
def pgCheckoutStep (products : List PgProduct)
    (acc : Option (ℚ × List OrderItem)) (item : PgCartItem) :
    Option (ℚ × List OrderItem) :=
  match acc with
  | none => none
  | some (t, os) =>
    match pgFindProduct products item.product_id with
    | none => none
    | some p =>
      let it := p.base_price_usd * (item.quantity : ℚ)
      some (t + it,
        os ++ [{ product_id := toString item.product_id,
                 product_name := p.name, quantity := item.quantity,
                 price_per_item := p.base_price_usd, item_total := it }])

/-- The `total_usd` / `order_items` computation of the relational checkout. -/
def pgCheckoutItems (products : List PgProduct) (items : List PgCartItem) :
    Option (ℚ × List OrderItem) :=
  items.foldl (pgCheckoutStep products) (some (0, []))

/-- The relational edition has no handler-level exception handling; an
unresolved association aborts the request with an unhandled error. -/
inductive PgCheckoutErr
  | cartEmpty
  | unhandled
deriving DecidableEq, Repr

/-- `POST /checkout` of the relational edition: 400 on an empty cart;
otherwise total and snapshots over the user's cart rows, insert the order
row, and delete all of the user's cart rows in the same commit. -/
def pgCheckout (s : PgState) (uid : ℕ) (code ship pay : String) :
    Except PgCheckoutErr (String × ℚ) × PgState :=
  let items := pgUserCart s uid
  if items.length = 0 then
    (.error .cartEmpty, s)
  else
    match pgCheckoutItems s.products items with
    | none => (.error .unhandled, s)
    | some (total, oitems) =>
      let order : PgOrder :=
        { order_id := code, user_id := uid, items := oitems,
          total_usd := total, shipping_address := ship, payment_method := pay,
          payment_status := "pending", order_status := "processing" }
      (.ok (code, total),
        { s with
            orders := s.orders ++ [order],
            cart_items := s.cart_items.filter (fun ci => !(ci.user_id == uid)) })

/-- The request body of `POST /auth/signup`; fields are `Option` because the
handler checks key presence (`k in data`), and `role` stands for any
client-supplied role field — the handler never reads it. -/
structure SignupData where
  name : Option String
  email : Option String
  phone : Option String
  password : Option String
  role : Option String
deriving Repr

/-- `POST /auth/signup` of the relational edition: all four keys must be
present, the email must be fresh; the created row always has
`role = "customer"`. -/
def pgSignup (users : List PgUser) (data : SignupData) (newId : ℕ)
    (now : ℕ) : Except ApiErr PgUser :=
  match data.name, data.email, data.phone, data.password with
  | some nm, some em, some ph, some _ =>
    if (users.find? (fun u => u.email == em)).isSome then
      .error .emailTaken
    else
      .ok { id := newId, name := nm, email := em, phone := ph,
            role := "customer", updated_at := now }
  | _, _, _, _ => .error .missingFields

/-! ## Spec-side descriptions of the checkout computation -/

/-- The snapshot items of the cart lines whose product reference resolves,
in cart order (the lines that fail to resolve are excluded). -/
def resolvedItems (products : List Product) (cart : List CartLine) :
    List OrderItem :=
  cart.filterMap (fun l =>
    (findProduct products l.product_id).map (fun p =>
      { product_id := p.id, product_name := p.name, quantity := l.quantity,
        price_per_item := p.base_price_usd,
        item_total := p.base_price_usd * (l.quantity : ℚ) }))

/-- The sum of `unit_price * quantity` over the cart lines whose product
reference resolves. -/
def resolvedTotal (products : List Product) (cart : List CartLine) : ℚ :=
  (cart.filterMap (fun l =>
    (findProduct products l.product_id).map (fun p =>
      p.base_price_usd * (l.quantity : ℚ)))).sum

/-- Relational analogue of `resolvedItems` over cart rows. -/
def pgResolvedItems (products : List PgProduct) (rows : List PgCartItem) :
    List OrderItem :=
  rows.filterMap (fun ci =>
    (pgFindProduct products ci.product_id).map (fun p =>
      { product_id := toString ci.product_id, product_name := p.name,
        quantity := ci.quantity, price_per_item := p.base_price_usd,
        item_total := p.base_price_usd * (ci.quantity : ℚ) }))

/-- Relational analogue of `resolvedTotal` over cart rows. -/
def pgResolvedTotal (products : List PgProduct) (rows : List PgCartItem) : ℚ :=
  (rows.filterMap (fun ci =>
    (pgFindProduct products ci.product_id).map (fun p =>
      p.base_price_usd * (ci.quantity : ℚ)))).sum

theorem checkout_foldl_eq (products : List Product) (cart : List CartLine) :
    ∀ (t : ℚ) (os : List OrderItem),
      cart.foldl (checkoutStep products) (t, os) =
        (t + resolvedTotal products cart, os ++ resolvedItems products cart) := by
  induction cart with
  | nil =>
    intro t os
    simp [resolvedTotal, resolvedItems]
  | cons l ls ih =>
    intro t os
    rw [List.foldl_cons]
    cases h : findProduct products l.product_id with
    | none =>
      have hs : checkoutStep products (t, os) l = (t, os) := by
        simp [checkoutStep, h]
      rw [hs, ih]
      simp [resolvedTotal, resolvedItems, h]
    | some p =>
      have hs : checkoutStep products (t, os) l =
          (t + p.base_price_usd * (l.quantity : ℚ),
            os ++ [{ product_id := p.id, product_name := p.name,
                     quantity := l.quantity,
                     price_per_item := p.base_price_usd,
                     item_total := p.base_price_usd * (l.quantity : ℚ) }]) := by
        simp [checkoutStep, h]
      rw [hs, ih]
      simp [resolvedTotal, resolvedItems, h, add_assoc]

theorem checkoutItems_eq (products : List Product) (cart : List CartLine) :
    checkoutItems products cart =
      (resolvedTotal products cart, resolvedItems products cart) := by
  simpa using checkout_foldl_eq products cart 0 []

theorem cartTotal_foldl_eq (products : List Product) (cart : List CartLine) :
    ∀ t : ℚ, cart.foldl (cartTotalStep products) t =
      t + resolvedTotal products cart := by
  induction cart with
  | nil =>
    intro t
    simp [resolvedTotal]
  | cons l ls ih =>
    intro t
    rw [List.foldl_cons]
    cases h : findProduct products l.product_id with
    | none =>
      have hs : cartTotalStep products t l = t := by simp [cartTotalStep, h]
      rw [hs, ih]
      simp [resolvedTotal, h]
    | some p =>
      have hs : cartTotalStep products t l =
          t + p.base_price_usd * (l.quantity : ℚ) := by
        simp [cartTotalStep, h]
      rw [hs, ih]
      simp [resolvedTotal, h, add_assoc]

theorem cartTotalUsd_eq (products : List Product) (cart : List CartLine) :
    cartTotalUsd products cart = resolvedTotal products cart := by
  simpa using cartTotal_foldl_eq products cart 0

theorem pgCheckout_foldl_eq (products : List PgProduct) :
    ∀ (rows : List PgCartItem),
      (∀ ci ∈ rows, (pgFindProduct products ci.product_id).isSome) →
      ∀ (t : ℚ) (os : List OrderItem),
        rows.foldl (pgCheckoutStep products) (some (t, os)) =
          some (t + pgResolvedTotal products rows,
                os ++ pgResolvedItems products rows) := by
  intro rows
  induction rows with
  | nil =>
    intro _ t os
    simp [pgResolvedTotal, pgResolvedItems]
  | cons ci rest ih =>
    intro hall t os
    obtain ⟨p, hp⟩ := Option.isSome_iff_exists.mp (hall ci (by simp))
    rw [List.foldl_cons]
    have hs : pgCheckoutStep products (some (t, os)) ci =
        some (t + p.base_price_usd * (ci.quantity : ℚ),
          os ++ [{ product_id := toString ci.product_id,
                   product_name := p.name, quantity := ci.quantity,
                   price_per_item := p.base_price_usd,
                   item_total := p.base_price_usd * (ci.quantity : ℚ) }]) := by
      simp [pgCheckoutStep, hp]
    rw [hs, ih (fun x hx => hall x (by simp [hx]))]
    simp [pgResolvedTotal, pgResolvedItems, hp, add_assoc]

theorem pgCheckoutItems_eq (products : List PgProduct)
    (rows : List PgCartItem)
    (hall : ∀ ci ∈ rows, (pgFindProduct products ci.product_id).isSome) :
    pgCheckoutItems products rows =
      some (pgResolvedTotal products rows, pgResolvedItems products rows) := by
  simpa using pgCheckout_foldl_eq products rows hall 0 []

theorem filter_user_of_erased (l : List PgCartItem) (uid : ℕ) :
    (l.filter (fun ci => !(ci.user_id == uid))).filter
        (fun ci => ci.user_id == uid) = [] := by
  induction l with
  | nil => rfl
  | cons a t ih =>
    cases h : a.user_id == uid <;> simp [List.filter_cons, h, ih]

/-! ## Claim C1: checkout on a non-empty cart -/

/-- Claim C1: for every user whose cart is non-empty, a successful checkout
persists an order whose `total_usd` is the sum of `unit_price * quantity`
over the resolvable cart lines, with one snapshot item (product id, name,
quantity, unit price, line total) per resolvable line; the user's cart is
empty immediately afterwards; and the new order's id appears in the user's
order-reference list.  Document edition: the storage id is appended to the
user's `orders` array.  Relational edition (under the foreign-key invariant
that cart rows reference existing products): the new order row carries the
user's id, so it appears in the user's order list as queried by
`GET /orders`. -/
theorem checkout_nonempty_spec :
    (∀ (s : MongoState) (code sid ship pay : String) (now : ℕ),
      s.user.cart ≠ [] →
        (checkout s code sid ship pay now).1 =
          .ok { order_id := code, order_number := sid,
                total := resolvedTotal s.products s.user.cart,
                items_count := (resolvedItems s.products s.user.cart).length } ∧
        (checkout s code sid ship pay now).2.orders =
          s.orders ++
            [{ order_id := code, user_id := s.user.id,
               items := resolvedItems s.products s.user.cart,
               total_usd := resolvedTotal s.products s.user.cart,
               shipping_address := ship, payment_method := pay,
               payment_status := "pending", order_status := "processing",
               created_at := now }] ∧
        (checkout s code sid ship pay now).2.user.cart = [] ∧
        sid ∈ (checkout s code sid ship pay now).2.user.orders) ∧
    (∀ (s : PgState) (uid : ℕ) (code ship pay : String),
      pgUserCart s uid ≠ [] →
      (∀ ci ∈ pgUserCart s uid,
          (pgFindProduct s.products ci.product_id).isSome) →
        (pgCheckout s uid code ship pay).1 =
          .ok (code, pgResolvedTotal s.products (pgUserCart s uid)) ∧
        pgUserCart (pgCheckout s uid code ship pay).2 uid = [] ∧
        ∃ o ∈ (pgCheckout s uid code ship pay).2.orders,
          o.user_id = uid ∧ o.order_id = code ∧
          o.total_usd = pgResolvedTotal s.products (pgUserCart s uid) ∧
          o.items = pgResolvedItems s.products (pgUserCart s uid)) := by
  constructor
  · intro s code sid ship pay now h
    have hlen : ¬ s.user.cart.length = 0 := by
      simpa [List.length_eq_zero] using h
    simp only [checkout, if_neg hlen, checkoutItems_eq]
    simp
  · intro s uid code ship pay h hall
    have hlen : ¬ (pgUserCart s uid).length = 0 := by
      simpa [List.length_eq_zero] using h
    simp only [pgCheckout, if_neg hlen, pgCheckoutItems_eq s.products _ hall]
    refine ⟨by trivial, ?_, ?_⟩
    · simp [pgUserCart, filter_user_of_erased s.cart_items uid]
    · exact ⟨{ order_id := code, user_id := uid,
               items := pgResolvedItems s.products (pgUserCart s uid),
               total_usd := pgResolvedTotal s.products (pgUserCart s uid),
               shipping_address := ship, payment_method := pay,
               payment_status := "pending", order_status := "processing" },
             by simp, rfl, rfl, rfl, rfl⟩

/-- A concrete product catalog and user state used by witnesses:
one 29.99 USD product, in the user's cart with quantity 2. -/
def sampleState : MongoState :=
  { products := [{ id := "p1", name := "Complex Clarifier Cream",
                   base_price_usd := 2999 / 100 }],
    user := { id := "u1", username := "amina", email := "amina@example.com",
              country := "Kenya", preferred_currency := "KES",
              role := "customer",
              cart := [{ product_id := "p1", quantity := 2, added_at := 1 }],
              orders := [], created_at := 0, updated_at := 0 },
    orders := [] }

/-- A concrete relational state used by witnesses: user 7 has one cart row
for product 1 (34.50 USD, quantity 1). -/
def pgSampleState : PgState :=
  { products := [{ id := 1, name := "Complexion Clarifier Serum",
                   base_price_usd := 345 / 10 }],
    users := [{ id := 7, name := "Bina", email := "bina@example.com",
                phone := "0700", role := "customer", updated_at := 5 }],
    cart_items := [{ user_id := 7, product_id := 1, quantity := 1 }],
    orders := [] }

/-- Witness for C1 at the concrete states: both hypotheses hold and the main
conclusions (success, cart cleared, order id recorded) follow by applying
`checkout_nonempty_spec` there. -/
theorem checkout_nonempty_spec_witness :
    sampleState.user.cart ≠ [] ∧
    pgUserCart pgSampleState 7 ≠ [] ∧
    (∀ ci ∈ pgUserCart pgSampleState 7,
        (pgFindProduct pgSampleState.products ci.product_id).isSome) ∧
    (checkout sampleState "AB12CD34" "sid9" "addr" "card" 9).2.user.cart = [] ∧
    "sid9" ∈ (checkout sampleState "AB12CD34" "sid9" "addr" "card" 9).2.user.orders ∧
    pgUserCart (pgCheckout pgSampleState 7 "EF56GH78" "addr" "card").2 7 = [] :=
  ⟨by decide, by decide, by decide,
    (checkout_nonempty_spec.1 sampleState "AB12CD34" "sid9" "addr" "card" 9
      (by decide)).2.2.1,
    (checkout_nonempty_spec.1 sampleState "AB12CD34" "sid9" "addr" "card" 9
      (by decide)).2.2.2,
    (checkout_nonempty_spec.2 pgSampleState 7 "EF56GH78" "addr" "card"
      (by decide) (by decide)).2.1⟩

/-! ## Claim C3: checkout on an empty cart -/

/-- Claim C3: for every user whose cart has zero lines, checkout fails with
the empty-cart error (HTTP 400) and performs no writes: the whole storage
state is returned unchanged, in both editions. -/
theorem checkout_empty_cart_spec :
    (∀ (s : MongoState) (code sid ship pay : String) (now : ℕ),
      s.user.cart = [] →
        (checkout s code sid ship pay now).1 = .error .cartEmpty ∧
        (checkout s code sid ship pay now).2 = s ∧
        ApiErr.cartEmpty.httpStatus = 400) ∧
    (∀ (s : PgState) (uid : ℕ) (code ship pay : String),
      pgUserCart s uid = [] →
        (pgCheckout s uid code ship pay).1 = .error .cartEmpty ∧
        (pgCheckout s uid code ship pay).2 = s) := by
  constructor
  · intro s code sid ship pay now h
    have hlen : s.user.cart.length = 0 := by simp [h]
    simp [checkout, hlen, ApiErr.httpStatus]
  · intro s uid code ship pay h
    have hlen : (pgUserCart s uid).length = 0 := by simp [h]
    simp [pgCheckout, hlen]

/-- An empty-cart variant of the sample document state. -/
def sampleStateEmpty : MongoState :=
  { sampleState with user := { sampleState.user with cart := [] } }

/-- An empty-cart variant of the sample relational state. -/
def pgSampleStateEmpty : PgState :=
  { pgSampleState with cart_items := [] }

/-- Witness for C3 at the concrete empty-cart states. -/
theorem checkout_empty_cart_spec_witness :
    sampleStateEmpty.user.cart = [] ∧
    pgUserCart pgSampleStateEmpty 7 = [] ∧
    ((checkout sampleStateEmpty "AB" "sid" "a" "card" 3).1 = .error .cartEmpty ∧
      (checkout sampleStateEmpty "AB" "sid" "a" "card" 3).2 = sampleStateEmpty ∧
      ApiErr.cartEmpty.httpStatus = 400) ∧
    ((pgCheckout pgSampleStateEmpty 7 "CD" "a" "card").1 = .error .cartEmpty ∧
      (pgCheckout pgSampleStateEmpty 7 "CD" "a" "card").2 = pgSampleStateEmpty) :=
  ⟨rfl, rfl,
    checkout_empty_cart_spec.1 sampleStateEmpty "AB" "sid" "a" "card" 3 rfl,
    checkout_empty_cart_spec.2 pgSampleStateEmpty 7 "CD" "a" "card" rfl⟩

/-! ## Claim C4: unresolvable cart lines are silently skipped -/

/-- Claim C4: during checkout of a non-empty cart in the document edition,
a cart line whose product reference fails to resolve is skipped — the order
total and items are exactly those of the cart without that line — and the
checkout still succeeds; the same silent exclusion applies to the cart total
of `GET /cart`.  (In the relational edition the checkout loop performs no such
skip: an unresolved association raises instead, but foreign-key constraints
keep cart rows pointing at existing products, so the case is unreachable
there; see `pgCheckoutStep`.) -/
theorem checkout_skips_unresolved_spec
    (s : MongoState) (c1 c2 : List CartLine) (l : CartLine)
    (h : findProduct s.products l.product_id = none)
    (hc : s.user.cart = c1 ++ l :: c2) :
    checkoutItems s.products s.user.cart = checkoutItems s.products (c1 ++ c2) ∧
    cartTotalUsd s.products s.user.cart = cartTotalUsd s.products (c1 ++ c2) ∧
    ∀ (code sid ship pay : String) (now : ℕ),
      (checkout s code sid ship pay now).1 =
        .ok { order_id := code, order_number := sid,
              total := resolvedTotal s.products (c1 ++ c2),
              items_count := (resolvedItems s.products (c1 ++ c2)).length } := by
  have hitems : resolvedItems s.products s.user.cart =
      resolvedItems s.products (c1 ++ c2) := by
    simp [resolvedItems, hc, List.filterMap_append, List.filterMap_cons, h]
  have htotal : resolvedTotal s.products s.user.cart =
      resolvedTotal s.products (c1 ++ c2) := by
    simp [resolvedTotal, hc, List.filterMap_append, List.filterMap_cons, h]
  have hne : s.user.cart ≠ [] := by simp [hc]
  have hlen : ¬ s.user.cart.length = 0 := by
    simpa [List.length_eq_zero] using hne
  refine ⟨?_, ?_, ?_⟩
  · rw [checkoutItems_eq, checkoutItems_eq, hitems, htotal]
  · rw [cartTotalUsd_eq, cartTotalUsd_eq, htotal]
  · intro code sid ship pay now
    simp only [checkout, if_neg hlen, checkoutItems_eq, hitems, htotal]

/-- The sample document state with a second cart line whose product id
resolves to nothing (the product was deleted after being added). -/
def sampleStateGhost : MongoState :=
  { sampleState with
      user := { sampleState.user with
                  cart := [{ product_id := "p1", quantity := 2, added_at := 1 },
                           { product_id := "ghost", quantity := 3,
                             added_at := 2 }] } }

/-- Witness for C4: in `sampleStateGhost` the line for the deleted product
"ghost" fails to resolve, and checkout succeeds with the totals of the cart
without that line. -/
theorem checkout_skips_unresolved_spec_witness :
    findProduct sampleStateGhost.products "ghost" = none ∧
    sampleStateGhost.user.cart =
      [{ product_id := "p1", quantity := 2, added_at := 1 }] ++
        { product_id := "ghost", quantity := 3, added_at := 2 } :: [] ∧
    (checkout sampleStateGhost "AA11BB22" "s1" "a" "card" 4).1 =
      .ok { order_id := "AA11BB22", order_number := "s1",
            total := resolvedTotal sampleStateGhost.products
              [{ product_id := "p1", quantity := 2, added_at := 1 }],
            items_count := (resolvedItems sampleStateGhost.products
              [{ product_id := "p1", quantity := 2, added_at := 1 }]).length } :=
  ⟨by decide, by decide,
    by
      have hr := checkout_skips_unresolved_spec sampleStateGhost
        [{ product_id := "p1", quantity := 2, added_at := 1 }] []
        { product_id := "ghost", quantity := 3, added_at := 2 }
        (by decide) (by decide)
      simpa using hr.2.2 "AA11BB22" "s1" "a" "card" 4⟩

/-! ## Claim C9: checkout when no cart line resolves -/

/-- Claim C9: in the document edition, when the cart is non-empty but none of
its lines' product references resolve, checkout still succeeds: it persists
an order with an empty item list and `total_usd = 0`, clears the cart,
appends the order's storage id to the user's order list, and reports
`items_count = 0`. -/
theorem checkout_all_unresolved_spec
    (s : MongoState) (code sid ship pay : String) (now : ℕ)
    (hne : s.user.cart ≠ [])
    (hall : ∀ l ∈ s.user.cart, findProduct s.products l.product_id = none) :
    (checkout s code sid ship pay now).1 =
      .ok { order_id := code, order_number := sid, total := 0,
            items_count := 0 } ∧
    (checkout s code sid ship pay now).2.user.cart = [] ∧
    (checkout s code sid ship pay now).2.user.orders =
      s.user.orders ++ [sid] ∧
    (checkout s code sid ship pay now).2.orders =
      s.orders ++
        [{ order_id := code, user_id := s.user.id, items := [],
           total_usd := 0, shipping_address := ship, payment_method := pay,
           payment_status := "pending", order_status := "processing",
           created_at := now }] := by
  have hlen : ¬ s.user.cart.length = 0 := by
    simpa [List.length_eq_zero] using hne
  have hnil : ∀ l ∈ s.user.cart,
      (findProduct s.products l.product_id).map
        (fun p => p.base_price_usd * (l.quantity : ℚ)) = none := by
    intro a ha
    rw [hall a ha]
    rfl
  have htotal : resolvedTotal s.products s.user.cart = 0 := by
    unfold resolvedTotal
    rw [List.filterMap_eq_nil_iff.mpr hnil]
    rfl
  have hitems : resolvedItems s.products s.user.cart = [] := by
    unfold resolvedItems
    refine List.filterMap_eq_nil_iff.mpr ?_
    intro a ha
    rw [hall a ha]
    rfl
  simp only [checkout, if_neg hlen, checkoutItems_eq, htotal, hitems]
  simp

/-- A document state whose only cart line references a deleted product. -/
def sampleStateAllGhost : MongoState :=
  { sampleState with
      products := [],
      user := { sampleState.user with
                  cart := [{ product_id := "ghost", quantity := 3,
                             added_at := 2 }] } }

/-- Witness for C9 at the concrete state whose single cart line does not
resolve. -/
theorem checkout_all_unresolved_spec_witness :
    sampleStateAllGhost.user.cart ≠ [] ∧
    (∀ l ∈ sampleStateAllGhost.user.cart,
        findProduct sampleStateAllGhost.products l.product_id = none) ∧
    ((checkout sampleStateAllGhost "ZZ99" "sid0" "a" "mpesa" 6).1 =
        .ok { order_id := "ZZ99", order_number := "sid0", total := 0,
              items_count := 0 } ∧
      (checkout sampleStateAllGhost "ZZ99" "sid0" "a" "mpesa" 6).2.user.cart
        = [] ∧
      (checkout sampleStateAllGhost "ZZ99" "sid0" "a" "mpesa" 6).2.user.orders
        = sampleStateAllGhost.user.orders ++ ["sid0"] ∧
      (checkout sampleStateAllGhost "ZZ99" "sid0" "a" "mpesa" 6).2.orders =
        sampleStateAllGhost.orders ++
          [{ order_id := "ZZ99", user_id := sampleStateAllGhost.user.id,
             items := [], total_usd := 0, shipping_address := "a",
             payment_method := "mpesa", payment_status := "pending",
             order_status := "processing", created_at := 6 }]) :=
  ⟨by decide, by decide,
    checkout_all_unresolved_spec sampleStateAllGhost "ZZ99" "sid0" "a" "mpesa" 6
      (by decide) (by decide)⟩

/-! ## Claim C5: add-to-cart validation (corrected) -/

/-- Counterexample to C5 as stated: C5 says every `add` with quantity ≤ 0
fails with InvalidArgument (400).  In the document edition, adding quantity
-1 of an existing product succeeds (only falsy quantities, i.e. 0, are
rejected, and only as a missing-field error); in the relational edition even
quantity 0 and negative quantities succeed — there is no quantity check at
all. -/
theorem add_to_cart_negative_qty_counterexample :
    (-1 : ℤ) ≤ 0 ∧
    (add_to_cart sampleState "p1" (-1) 3).1 = .ok 1 ∧
    (0 : ℤ) ≤ 0 ∧
    (pgAddToCart pgSampleState 7 1 0).1 = .ok () ∧
    (pgAddToCart pgSampleState 7 1 (-2)).1 = .ok () := by
  refine ⟨by decide, rfl, by decide, rfl, rfl⟩

/-- Claim C5 as amended: `add` fails with NotFound (404) when the product
does not exist (given a well-formed request).  The document edition rejects
quantity 0 — but with the 400 missing-field error, because 0 is falsy — and
accepts any nonzero quantity of an existing product, negative included; the
relational edition performs no quantity validation and accepts any quantity
of an existing product. -/
theorem add_to_cart_validation_amended :
    (∀ (s : MongoState) (pid : String) (q : ℤ) (now : ℕ),
      pid ≠ "" → q ≠ 0 → findProduct s.products pid = none →
        (add_to_cart s pid q now).1 = .error .productNotFound ∧
        ApiErr.productNotFound.httpStatus = 404) ∧
    (∀ (s : MongoState) (pid : String) (now : ℕ),
        (add_to_cart s pid 0 now).1 = .error .missingFields ∧
        ApiErr.missingFields.httpStatus = 400) ∧
    (∀ (s : MongoState) (pid : String) (q : ℤ) (now : ℕ) (p : Product),
      pid ≠ "" → q ≠ 0 → findProduct s.products pid = some p →
        (add_to_cart s pid q now).1 =
          .ok (addLine s.user.cart pid q now).length) ∧
    (∀ (s : PgState) (uid pid : ℕ) (q : ℤ),
      pgFindProduct s.products pid = none →
        (pgAddToCart s uid pid q).1 = .error .productNotFound) ∧
    (∀ (s : PgState) (uid pid : ℕ) (q : ℤ) (p : PgProduct),
      pgFindProduct s.products pid = some p →
        (pgAddToCart s uid pid q).1 = .ok ()) := by
  refine ⟨?_, ?_, ?_, ?_, ?_⟩
  · intro s pid q now hpid hq hf
    simp [add_to_cart, hpid, hq, hf, ApiErr.httpStatus]
  · intro s pid now
    simp [add_to_cart, ApiErr.httpStatus]
  · intro s pid q now p hpid hq hf
    simp [add_to_cart, hpid, hq, hf]
  · intro s uid pid q hf
    simp [pgAddToCart, hf]
  · intro s uid pid q p hf
    simp [pgAddToCart, hf]

/-- Witness for the amended C5 at concrete inputs: a missing product id
yields 404, quantity 0 yields the 400 missing-field error, and a missing
product in the relational edition yields 404. -/
theorem add_to_cart_validation_amended_witness :
    ("nope" : String) ≠ "" ∧ (2 : ℤ) ≠ 0 ∧
    findProduct sampleState.products "nope" = none ∧
    ((add_to_cart sampleState "nope" 2 3).1 = .error .productNotFound ∧
      ApiErr.productNotFound.httpStatus = 404) ∧
    ((add_to_cart sampleState "p1" 0 3).1 = .error .missingFields ∧
      ApiErr.missingFields.httpStatus = 400) ∧
    pgFindProduct pgSampleState.products 99 = none ∧
    (pgAddToCart pgSampleState 7 99 1).1 = .error .productNotFound :=
  ⟨by decide, by decide, by decide,
    add_to_cart_validation_amended.1 sampleState "nope" 2 3 (by decide)
      (by decide) (by decide),
    add_to_cart_validation_amended.2.1 sampleState "p1" 3,
    by decide,
    add_to_cart_validation_amended.2.2.2.1 pgSampleState 7 99 1 (by decide)⟩

/-! ## Claim C6: add is merge-by-product -/

theorem addLine_addLine (cart : List CartLine) (pid : String) (q1 q2 : ℤ)
    (now : ℕ) :
    addLine (addLine cart pid q1 now) pid q2 now =
      addLine cart pid (q1 + q2) now := by
  induction cart with
  | nil => simp [addLine, add_assoc]
  | cons l ls ih =>
    by_cases h : l.product_id = pid
    · simp [addLine, h, add_assoc]
    · simp [addLine, h, ih]

theorem addLine_keys (cart : List CartLine) (pid : String) (q : ℤ) (now : ℕ) :
    (addLine cart pid q now).map (fun l => l.product_id) =
      if pid ∈ cart.map (fun l => l.product_id)
      then cart.map (fun l => l.product_id)
      else cart.map (fun l => l.product_id) ++ [pid] := by
  induction cart with
  | nil => simp [addLine]
  | cons l ls ih =>
    by_cases h : l.product_id = pid
    · subst h
      simp [addLine]
    · have h2 : ¬ pid = l.product_id := fun hh => h hh.symm
      by_cases hm : pid ∈ ls.map (fun x => x.product_id) <;>
        simp [addLine, h, h2, hm, ih]

theorem pgAddItem_pgAddItem (rows : List PgCartItem) (uid pid : ℕ)
    (q1 q2 : ℤ) :
    pgAddItem (pgAddItem rows uid pid q1) uid pid q2 =
      pgAddItem rows uid pid (q1 + q2) := by
  induction rows with
  | nil => simp [pgAddItem, add_assoc]
  | cons ci rest ih =>
    by_cases h : ci.user_id = uid ∧ ci.product_id = pid
    · simp [pgAddItem, h, add_assoc]
    · simp [pgAddItem, h, ih]

/-- Claim C6: adding the same product twice merges into one line.  In both
editions, `add(pid, q1)` followed by `add(pid, q2)` (with the same clock)
produces the same final state as one `add(pid, q1 + q2)`; and the merge loop
preserves the at-most-one-line-per-product shape of the cart, incrementing
the existing line rather than appending a duplicate. -/
theorem add_merge_spec :
    (∀ (s : MongoState) (pid : String) (q1 q2 : ℤ) (now : ℕ),
      0 < q1 → 0 < q2 →
        (add_to_cart (add_to_cart s pid q1 now).2 pid q2 now).2 =
          (add_to_cart s pid (q1 + q2) now).2) ∧
    (∀ (cart : List CartLine) (pid : String) (q : ℤ) (now : ℕ),
      (cart.map (fun l => l.product_id)).Nodup →
        ((addLine cart pid q now).map (fun l => l.product_id)).Nodup) ∧
    (∀ (s : PgState) (uid pid : ℕ) (q1 q2 : ℤ),
      0 < q1 → 0 < q2 →
        (pgAddToCart (pgAddToCart s uid pid q1).2 uid pid q2).2 =
          (pgAddToCart s uid pid (q1 + q2)).2) := by
  refine ⟨?_, ?_, ?_⟩
  · intro s pid q1 q2 now hq1 hq2
    by_cases hpid : pid = ""
    · simp [add_to_cart, hpid]
    · cases hf : findProduct s.products pid with
      | none => simp [add_to_cart, hpid, hq1.ne', hq2.ne',
          (by positivity : (0 : ℤ) < q1 + q2).ne', hf]
      | some p => simp [add_to_cart, hpid, hq1.ne', hq2.ne',
          (by positivity : (0 : ℤ) < q1 + q2).ne', hf, addLine_addLine]
  · intro cart pid q now h
    rw [addLine_keys]
    by_cases hm : pid ∈ cart.map (fun l => l.product_id)
    · simpa [hm] using h
    · simp [hm, List.nodup_append, h]
  · intro s uid pid q1 q2 _ _
    cases hf : pgFindProduct s.products pid with
    | none => simp [pgAddToCart, hf]
    | some p => simp [pgAddToCart, hf, pgAddItem_pgAddItem]

/-- Witness for C6 at concrete inputs: adding product p1 with quantities 1
and 3 in two calls equals adding quantity 4 once, in both editions, and the
merge keeps the sample cart keys duplicate-free. -/
theorem add_merge_spec_witness :
    (0 : ℤ) < 1 ∧ (0 : ℤ) < 3 ∧
    (add_to_cart (add_to_cart sampleState "p1" 1 8).2 "p1" 3 8).2 =
      (add_to_cart sampleState "p1" (1 + 3) 8).2 ∧
    (sampleState.user.cart.map (fun l => l.product_id)).Nodup ∧
    ((addLine sampleState.user.cart "p1" 3 8).map
      (fun l => l.product_id)).Nodup ∧
    (pgAddToCart (pgAddToCart pgSampleState 7 1 1).2 7 1 3).2 =
      (pgAddToCart pgSampleState 7 1 (1 + 3)).2 :=
  ⟨by decide, by decide,
    add_merge_spec.1 sampleState "p1" 1 3 8 (by decide) (by decide),
    by decide,
    add_merge_spec.2.1 sampleState.user.cart "p1" 3 8 (by decide),
    add_merge_spec.2.2 pgSampleState 7 1 1 3 (by decide) (by decide)⟩

/-! ## Claim C7: remove is idempotent -/

theorem filter_ne_idem (cart : List CartLine) (pid : String) :
    (cart.filter (fun l => l.product_id != pid)).filter
        (fun l => l.product_id != pid) =
      cart.filter (fun l => l.product_id != pid) := by
  induction cart with
  | nil => rfl
  | cons l ls ih =>
    cases h : l.product_id != pid <;> simp [List.filter_cons, h, ih]

/-- Claim C7: `remove(product_id)` always succeeds (returning the new cart
length), removing the line for that product if present; applying it twice
equals applying it once; and removing a product that is not in the cart
leaves the cart unchanged. -/
theorem remove_idempotent_spec (s : MongoState) (pid : String) (now : ℕ) :
    (remove_from_cart s pid now).1 =
      .ok ((remove_from_cart s pid now).2.user.cart.length) ∧
    (remove_from_cart (remove_from_cart s pid now).2 pid now).2 =
      (remove_from_cart s pid now).2 ∧
    (pid ∉ s.user.cart.map (fun l => l.product_id) →
      (remove_from_cart s pid now).2.user.cart = s.user.cart) := by
  refine ⟨rfl, ?_, ?_⟩
  · simp [remove_from_cart, filter_ne_idem]
  · intro hm
    have hall : ∀ l ∈ s.user.cart, (l.product_id != pid) = true := by
      intro l hl
      have : l.product_id ≠ pid := by
        intro e
        exact hm (List.mem_map.mpr ⟨l, hl, e⟩)
      simpa using this
    simp [remove_from_cart, List.filter_eq_self.mpr hall]

/-- Witness for C7: removing an absent product from the sample cart leaves
it unchanged, and removing p1 twice equals removing it once. -/
theorem remove_idempotent_spec_witness :
    ("zzz" ∉ sampleState.user.cart.map (fun l => l.product_id)) ∧
    (remove_from_cart sampleState "zzz" 4).2.user.cart =
      sampleState.user.cart ∧
    (remove_from_cart (remove_from_cart sampleState "p1" 4).2 "p1" 4).2 =
      (remove_from_cart sampleState "p1" 4).2 :=
  ⟨by decide,
    (remove_idempotent_spec sampleState "zzz" 4).2.2 (by decide),
    (remove_idempotent_spec sampleState "p1" 4).2.1⟩

/-! ## Claim C8: cart mutations and the user timestamp (corrected) -/

/-- Counterexample to C8 as stated: C8 says every cart mutation updates the
owning user's `updated_at` in both editions.  In the relational edition a
successful `add_to_cart` mutates only the `cart_items` table and never
touches the `users` row, so the user's `updated_at` (an on-update column
default) stays at its old value 5. -/
theorem pg_add_no_user_touch_counterexample :
    (pgAddToCart pgSampleState 7 1 2).1 = .ok () ∧
    (pgAddToCart pgSampleState 7 1 2).2.users = pgSampleState.users ∧
    ∀ u ∈ (pgAddToCart pgSampleState 7 1 2).2.users, u.updated_at = 5 := by
  refine ⟨rfl, rfl, by decide⟩

/-- Claim C8 as amended: in the document-store edition every successful cart
mutation (add and remove) sets the owning user's `updated_at` to the request
time, while in the relational edition `add_to_cart` leaves the `users` table
entirely unchanged (and no cart-remove endpoint exists). -/
theorem cart_mutation_timestamp_amended :
    (∀ (s : MongoState) (pid : String) (q : ℤ) (now : ℕ) (p : Product),
      pid ≠ "" → q ≠ 0 → findProduct s.products pid = some p →
        (add_to_cart s pid q now).2.user.updated_at = now) ∧
    (∀ (s : MongoState) (pid : String) (now : ℕ),
        (remove_from_cart s pid now).2.user.updated_at = now) ∧
    (∀ (s : PgState) (uid pid : ℕ) (q : ℤ),
        (pgAddToCart s uid pid q).2.users = s.users) := by
  refine ⟨?_, ?_, ?_⟩
  · intro s pid q now p hpid hq hf
    simp [add_to_cart, hpid, hq, hf]
  · intro s pid now
    rfl
  · intro s uid pid q
    cases hf : pgFindProduct s.products pid <;> simp [pgAddToCart, hf]

/-- Witness for the amended C8 at concrete inputs. -/
theorem cart_mutation_timestamp_amended_witness :
    ("p1" : String) ≠ "" ∧ (2 : ℤ) ≠ 0 ∧
    findProduct sampleState.products "p1" =
      some { id := "p1", name := "Complex Clarifier Cream",
             base_price_usd := 2999 / 100 } ∧
    (add_to_cart sampleState "p1" 2 11).2.user.updated_at = 11 ∧
    (remove_from_cart sampleState "p1" 12).2.user.updated_at = 12 ∧
    (pgAddToCart pgSampleState 7 1 2).2.users = pgSampleState.users :=
  ⟨by decide, by decide, rfl,
    cart_mutation_timestamp_amended.1 sampleState "p1" 2 11
      { id := "p1", name := "Complex Clarifier Cream",
        base_price_usd := 2999 / 100 }
      (by decide) (by decide) rfl,
    cart_mutation_timestamp_amended.2.1 sampleState "p1" 12,
    cart_mutation_timestamp_amended.2.2 pgSampleState 7 1 2⟩

/-! ## Claim C10: public registration only creates customers -/

/-- Claim C10: every user created through the public registration endpoint
has role "customer", whatever role field the client supplies (the handlers
never read it); hence an admin-role user can never be created through public
registration in either edition. -/
theorem register_role_customer_spec :
    (∀ (existing : List MUser) (data : RegisterData) (newId : String)
        (now : ℕ) (u : MUser),
      register existing data newId now = .ok u →
        u.role = "customer" ∧ u.role ≠ "admin") ∧
    (∀ (users : List PgUser) (data : SignupData) (newId now : ℕ)
        (u : PgUser),
      pgSignup users data newId now = .ok u →
        u.role = "customer" ∧ u.role ≠ "admin") := by
  constructor
  · intro existing data newId now u h
    unfold register at h
    repeat' split at h
    all_goals first
      | (rw [Except.ok.injEq] at h; subst h; exact ⟨rfl, by simp⟩)
      | simp_all
  · intro users data newId now u h
    unfold pgSignup at h
    repeat' split at h
    all_goals first
      | (rw [Except.ok.injEq] at h; subst h; exact ⟨rfl, by simp⟩)
      | simp_all

/-- A registration request that tries to smuggle in an admin role. -/
def regData : RegisterData :=
  { username := "eve", email := "eve@example.com", password := "pw",
    country := none, preferred_currency := none, role := some "admin" }

/-- The user document the document edition creates for `regData`. -/
def regUser : MUser :=
  { id := "u9", username := "eve", email := "eve@example.com",
    country := "Kenya", preferred_currency := "KES", role := "customer",
    cart := [], orders := [], created_at := 4, updated_at := 4 }

/-- A signup request for the relational edition, also supplying a role. -/
def sigData : SignupData :=
  { name := some "Eve", email := some "eve@example.com",
    phone := some "0711", password := some "pw", role := some "admin" }

/-- The user row the relational edition creates for `sigData`. -/
def sigUser : PgUser :=
  { id := 9, name := "Eve", email := "eve@example.com", phone := "0711",
    role := "customer", updated_at := 4 }

/-- Witness for C10: both editions create the concrete requests above with
role "customer" even though the requests asked for "admin". -/
theorem register_role_customer_spec_witness :
    register [] regData "u9" 4 = .ok regUser ∧
    pgSignup [] sigData 9 4 = .ok sigUser ∧
    (regUser.role = "customer" ∧ regUser.role ≠ "admin") ∧
    (sigUser.role = "customer" ∧ sigUser.role ≠ "admin") :=
  ⟨rfl, rfl,
    register_role_customer_spec.1 [] regData "u9" 4 regUser rfl,
    register_role_customer_spec.2 [] sigData 9 4 sigUser rfl⟩

end QueenKoba
